import Mathlib

/-!
Shallow embedding of the deduplicating file store of this repository
(backend/files/models.py, backend/files/views.py and the migration
0002_file_content_hash_file_unique_content_filename.py).

Bytes are modelled as lists of naturals.  The SHA-256 primitive of the
hasher is abstracted as a function parameter (the digest is used only as a
collision-resistant content-identity key); the record-store model
instantiates it with the identity fingerprint, the standard collision-free
abstraction of a cryptographic digest.
-/

namespace FileHub

/-- A byte stream with a read cursor: the Python file object interface used
by calculate_file_hash (tell, seek, read). -/
@[ext]
structure FileStream where
  content : List Nat
  pos : Nat
deriving Repr, DecidableEq

/-- One call of file.read n in calculate_file_hash (models.py:25): returns
the next chunk, at most n bytes from the cursor, and advances the cursor by
the number of bytes actually read. -/
def FileStream.readChunk (f : FileStream) (n : Nat) : List Nat × FileStream :=
  let chunk := (f.content.drop f.pos).take n
  (chunk, { f with pos := f.pos + chunk.length })

/-- The read loop of calculate_file_hash (models.py:24-28): read chunks of
4096 bytes until an empty read, feeding each chunk to the running digest,
modelled as accumulating the bytes read.  The fuel argument bounds the
number of iterations; readLoopFuel_bytes below shows that
content.length + 1 iterations always complete the loop. -/
def readLoopFuel : Nat → FileStream → List Nat × FileStream
  | 0, f => ([], f)
  | fuel + 1, f =>
    let r := f.readChunk 4096
    if r.1.isEmpty then ([], f)
    else
      let rest := readLoopFuel fuel r.2
      (r.1 ++ rest.1, rest.2)

/-- calculate_file_hash (models.py:7-33): remember tell(), seek to 0, read
and digest the whole stream in 4096-byte chunks, restore the saved cursor
in the finally block, and return the digest of the bytes read.  The sha
parameter abstracts hashlib.sha256 over the accumulated bytes. -/
def calculate_file_hash (sha : List Nat → List Nat) (file : FileStream) :
    List Nat × FileStream :=
  let original_pos := file.pos
  let start : FileStream := { file with pos := 0 }
  let r := readLoopFuel (file.content.length + 1) start
  (sha r.1, { r.2 with pos := original_pos })

/-- The digest the views compute for an upload (views.py:174): the hasher
applied to a fresh stream over the uploaded bytes, with the identity
fingerprint standing in for SHA-256. -/
def hexdigest (content : List Nat) : List Nat :=
  (calculate_file_hash (fun l => l) { content := content, pos := 0 }).1

theorem readLoopFuel_content (fuel : Nat) (f : FileStream) :
    ((readLoopFuel fuel f).2).content = f.content := by
  induction fuel generalizing f with
  | zero => rfl
  | succ n ih =>
    simp only [readLoopFuel, FileStream.readChunk]
    split
    · rfl
    · simpa using ih _

theorem readLoopFuel_bytes (fuel : Nat) (f : FileStream)
    (h : f.content.length - f.pos < fuel) :
    (readLoopFuel fuel f).1 = f.content.drop f.pos := by
  induction fuel generalizing f with
  | zero => omega
  | succ n ih =>
    simp only [readLoopFuel, FileStream.readChunk]
    split
    · next hemp =>
      simp only [List.isEmpty_iff, List.take_eq_nil_iff] at hemp
      rcases hemp with hemp | hemp
      · omega
      · simp [hemp]
    · next hemp =>
      simp only [List.isEmpty_iff, List.take_eq_nil_iff, not_or] at hemp
      have hpos : f.pos < f.content.length := by
        by_contra hle
        exact hemp.2 (List.drop_eq_nil_of_le (by omega))
      have hlen : ((f.content.drop f.pos).take 4096).length =
          min 4096 (f.content.length - f.pos) := by
        simp [List.length_take]
      have hne : 1 ≤ ((f.content.drop f.pos).take 4096).length := by
        rw [hlen]
        omega
      rw [ih]
      · have hdd : f.content.drop (f.pos + ((f.content.drop f.pos).take 4096).length) =
            (f.content.drop f.pos).drop ((f.content.drop f.pos).take 4096).length := by
          rw [List.drop_drop]
        simp only [hdd]
        have : (f.content.drop f.pos).drop ((f.content.drop f.pos).take 4096).length =
            (f.content.drop f.pos).drop 4096 := by
          rcases Nat.le_total 4096 (f.content.drop f.pos).length with hle | hle
          · rw [List.length_take, Nat.min_eq_left hle]
          · rw [List.drop_eq_nil_of_le (by rw [List.length_take]; omega),
              List.drop_eq_nil_of_le hle]
        rw [this, List.take_append_drop]
      · simp only [FileStream.readChunk]
        omega

theorem hexdigest_id (content : List Nat) : hexdigest content = content := by
  unfold hexdigest calculate_file_hash
  simp only
  rw [readLoopFuel_bytes]
  · simp
  · simp

/-- A row of the File table (models.py:45-73).  content_hash is nullable,
for legacy backfill only; size is the byte length; reference_count is a
positive integer defaulting to 1; storage_saved defaults to 0. -/
structure FileRec where
  id : Nat
  original_filename : String
  file_type : String
  size : Nat
  content_hash : Option (List Nat)
  reference_count : Nat
  storage_saved : Nat
deriving Repr, DecidableEq

/-- A row of the FileReference table (models.py:117-125): a named pointer
to an owning File row; reference_name carries a uniqueness constraint. -/
structure FileRefRec where
  id : Nat
  original_file : Nat
  reference_name : String
deriving Repr, DecidableEq

/-- The record store: the File and FileReference tables plus an id supply
standing in for generated primary keys. -/
structure DBState where
  files : List FileRec
  refs : List FileRefRec
  nextId : Nat
deriving Repr, DecidableEq

/-- The uniqueness constraint declared in File.Meta (models.py:67-73):
UniqueConstraint on the single field content_hash, restricted to rows whose
content_hash is not null. -/
def satisfies_unique_content_hash : List FileRec → Bool
  | [] => true
  | f :: rest =>
    (f.content_hash == none ||
      rest.all (fun g => !(f.content_hash == g.content_hash))) &&
    satisfies_unique_content_hash rest

/-- The uniqueness constraint created by the applied migration
0002_file_content_hash_file_unique_content_filename.py (lines 19-23):
UniqueConstraint on the field pair (content_hash, original_filename),
restricted to rows whose content_hash is not null. -/
def satisfies_unique_content_filename : List FileRec → Bool
  | [] => true
  | f :: rest =>
    (f.content_hash == none ||
      rest.all (fun g =>
        !(f.content_hash == g.content_hash &&
          f.original_filename == g.original_filename))) &&
    satisfies_unique_content_filename rest

/-- The storage-saved recomputation performed by File.save
(models.py:83-89): size times (reference_count - 1) when the count exceeds
1, else 0. -/
def storage_saved_formula (size count : Nat) : Nat :=
  if 1 < count then size * (count - 1) else 0

/-- The clamped new count of File.update_reference_count (models.py:97-102):
current count plus change, floored at 1. -/
def clampNewCount (current : Nat) (change : Int) : Nat :=
  if (current : Int) + change < 1 then 1 else ((current : Int) + change).toNat

/-- File.update_reference_count (models.py:93-115): read the current count
of the row, add change, clamp at 1, then issue one conditional UPDATE.  In
the generated SQL the WHEN reference_count > 1 condition of the CASE tests
the pre-update column value (standard SQL semantics for SET expressions),
while the THEN branch multiplies by the freshly computed new_count.  The
none result models the IndexError the Python raises when the row is
missing. -/
def update_reference_count (st : DBState) (pk : Nat) (change : Int) :
    Option DBState :=
  match st.files.find? (fun f => f.id == pk) with
  | none => none
  | some f =>
    let new_count := clampNewCount f.reference_count change
    some { st with files := st.files.map (fun g =>
      if g.id == pk then
        { g with
          reference_count := new_count,
          storage_saved :=
            if 1 < g.reference_count then g.size * (new_count - 1) else 0 }
      else g) }

/-- Structured outcomes of the view operations: the HTTP responses of
views.py reduced to their taxonomy kind and the identifying payload. -/
inductive Outcome where
  | validationError (msg : String)
  | created (fileId : Nat)
  | referenced (existingName : String)
  | conflictDuplicate (existingName : String)
  | conflictReferences (count : Nat)
  | notFound
  | deleted
  | serverError
deriving Repr, DecidableEq

/-- FileReference.save on creation (models.py:130-135), as invoked through
FileReference.objects.create (views.py:186-189).  The increment at
models.py:133-134 is guarded by a check that self.pk is absent, but the
UUIDField primary key carries default uuid.uuid4, which Django assigns at
instantiation — the guard is always false, so update_reference_count is
never invoked on reference creation.  The save therefore only inserts the
row, under a savepoint; a violation of the unique reference_name raises
IntegrityError, which rolls the savepoint back (result none, the caller
keeps the pre-call state). -/
def fileReference_create (st : DBState) (fileId : Nat) (name : String) :
    Option DBState :=
  let ref : FileRefRec :=
    { id := st.nextId, original_file := fileId, reference_name := name }
  if st.refs.any (fun r => r.reference_name == name) then none
  else some { st with refs := ref :: st.refs, nextId := st.nextId + 1 }

/-- The create branch of FileViewSet.create (views.py:203-240), reached
when no stored File carries the digest at lookup time: serializer
validation first (the DRF FileField of the model rejects empty uploads,
allow_empty_file being false), then File.save inserts the row with
reference_count 1, storage_saved 0 and the computed digest.  The applied
schema (migration 0002) constrains only the pair
(content_hash, original_filename), so a racing upload that committed the
same digest under a different filename makes this insert succeed with a
second File row for that digest; the insert raises IntegrityError only
when both digest and filename collide.  In that case the except block at
views.py:225-234 re-queries the File table, but the failed save has
already broken the enclosing atomic transaction, so that query raises
TransactionManagementError: the request ends as an unhandled server
error and the whole transaction is rolled back. -/
def createNewFile (st : DBState) (content : List Nat) (name ctype : String) :
    Outcome × DBState :=
  if content.isEmpty then (.validationError "Upload failed", st)
  else
    if st.files.any (fun f =>
        f.content_hash == some (hexdigest content) &&
        f.original_filename == name) then
      (.serverError, st)
    else
      let f : FileRec :=
        { id := st.nextId, original_filename := name, file_type := ctype,
          size := content.length, content_hash := some (hexdigest content),
          reference_count := 1, storage_saved := 0 }
      (.created st.nextId,
       { st with files := f :: st.files, nextId := st.nextId + 1 })

/-- FileViewSet.create (views.py:163-240): the submit operation.  The none
upload models a request without a file part (views.py:168-170).  Otherwise
the digest is computed, an existing File with that digest is looked up, and
the request either becomes a reference against it (answering 409 duplicate
on a reference-name clash, with the savepoint rolled back) or creates a new
File row. -/
def submit (st : DBState) (upload : Option (List Nat × String × String)) :
    Outcome × DBState :=
  match upload with
  | none => (.validationError "No file provided", st)
  | some (content, name, ctype) =>
    match st.files.find? (fun f => f.content_hash == some (hexdigest content)) with
    | some existing =>
      match fileReference_create st existing.id name with
      | some st2 => (.referenced existing.original_filename, st2)
      | none => (.conflictDuplicate existing.original_filename, st)
    | none => createNewFile st content name ctype

/-- FileViewSet.destroy (views.py:250-287): under a transaction holding an
exclusive lock on the File row, count its live references; a positive count
is answered with a 409 carrying the count and nothing changes; a zero count
deletes the File row (the CASCADE on FileReference.original_file is
vacuous at that point). -/
def destroy (st : DBState) (pk : Nat) : Outcome × DBState :=
  match st.files.find? (fun f => f.id == pk) with
  | none => (.notFound, st)
  | some _ =>
    let reference_count := (st.refs.filter (fun r => r.original_file == pk)).length
    if 0 < reference_count then (.conflictReferences reference_count, st)
    else
      (.deleted,
       { st with
         files := st.files.filter (fun f => !(f.id == pk)),
         refs := st.refs.filter (fun r => !(r.original_file == pk)) })

/-- FileReferenceViewSet.destroy (views.py:339-343) delegating to
FileReference.delete (models.py:137-141): inside one transaction, decrement
the owning File through update_reference_count with change -1, then remove
the reference row.  A missing owning row would raise inside the
transaction (modelled as serverError with nothing changed); the foreign key
prevents it in any consistent store. -/
def deleteReference (st : DBState) (refId : Nat) : Outcome × DBState :=
  match st.refs.find? (fun r => r.id == refId) with
  | none => (.notFound, st)
  | some ref =>
    match update_reference_count st ref.original_file (-1) with
    | none => (.serverError, st)
    | some st1 =>
      (.deleted, { st1 with refs := st1.refs.filter (fun r => !(r.id == refId)) })

/-- A sequence of update_reference_count calls against one File row, as
triggered by reference creations (+1) and deletions (-1); a call on a
missing row leaves the store unchanged. -/
def adjustSeq (st : DBState) (pk : Nat) : List Int → DBState
  | [] => st
  | d :: ds =>
    match update_reference_count st pk d with
    | some st1 => adjustSeq st1 pk ds
    | none => adjustSeq st pk ds

theorem clampNewCount_pos (current : Nat) (change : Int) :
    1 ≤ clampNewCount current change := by
  unfold clampNewCount
  split
  · exact le_refl 1
  · omega

theorem update_reference_count_files (st : DBState) (pk : Nat)
    (change : Int) (f : FileRec)
    (hf : st.files.find? (fun g => g.id == pk) = some f) :
    update_reference_count st pk change =
      some { st with files := st.files.map (fun g =>
        if g.id == pk then
          { g with
            reference_count := clampNewCount f.reference_count change,
            storage_saved :=
              if 1 < g.reference_count then
                g.size * (clampNewCount f.reference_count change - 1)
              else 0 }
        else g) } := by
  unfold update_reference_count
  rw [hf]

theorem length_filter_not_add {α : Type} (p : α → Bool) (l : List α) :
    (l.filter (fun a => !(p a))).length + (l.filter p).length = l.length := by
  induction l with
  | nil => rfl
  | cons a t ih =>
    cases hp : p a <;> simp [List.filter, hp] <;> omega

/-- C1: the claim fails at N = 2.  Uploading the five bytes of hello as
a.txt and then as b.txt leaves exactly one File row with that digest and
one FileReference row, but the File row still has reference_count = 1 and
storage_saved = 0: the increment in FileReference.save is guarded by a
pk-absence check that is always false (the UUID primary key default is
assigned at instantiation), so reference creation never calls
update_reference_count.  The claim — and the recomputation formula of
File.save — require reference_count = 2 and storage_saved = 5 * (2 - 1). -/
theorem two_uploads_leave_reference_count_one :
    (submit (submit ⟨[], [], 0⟩
        (some ([104, 101, 108, 108, 111], "a.txt", "text/plain"))).2
        (some ([104, 101, 108, 108, 111], "b.txt", "text/plain"))) =
      (.referenced "a.txt",
       ⟨[⟨0, "a.txt", "text/plain", 5, some [104, 101, 108, 108, 111], 1, 0⟩],
        [⟨1, 0, "b.txt"⟩], 2⟩) ∧
    storage_saved_formula 5 2 = 5 := by
  exact ⟨by decide, by decide⟩

/-- C2: the claim fails against the applied schema.  Two File rows sharing
one non-null digest under different filenames satisfy the
unique_content_filename constraint that the migration in the repository
actually creates, while violating the content_hash-only constraint that
File.Meta declares (no migration in the repository creates the latter). -/
theorem migration_constraint_admits_shared_digest :
    satisfies_unique_content_filename
        [⟨0, "a.txt", "text", 5, some [1, 2], 1, 0⟩,
         ⟨1, "b.txt", "text", 5, some [1, 2], 1, 0⟩] = true ∧
    satisfies_unique_content_hash
        [⟨0, "a.txt", "text", 5, some [1, 2], 1, 0⟩,
         ⟨1, "b.txt", "text", 5, some [1, 2], 1, 0⟩] = false := by
  exact ⟨by decide, by decide⟩

/-- C3: the claim fails on the increment path.  Incrementing the count of a
File with reference_count = 1 and size = 5 writes the row
(reference_count = 2, storage_saved = 0), while the recomputation formula
of File.save gives 5 * (2 - 1) = 5: the conditional UPDATE of
update_reference_count tests the pre-update count, so the write is not the
claimed recomputation. -/
theorem increment_from_one_skips_storage_recompute :
    update_reference_count
        ⟨[⟨0, "a.txt", "text", 5, some [1], 1, 0⟩], [], 1⟩ 0 1 =
      some ⟨[⟨0, "a.txt", "text", 5, some [1], 2, 0⟩], [], 1⟩ ∧
    storage_saved_formula 5 2 = 5 := by
  exact ⟨by decide, by decide⟩

theorem update_reference_count_count_ge (st : DBState) (pk : Nat)
    (change : Int) (st1 : DBState)
    (h : update_reference_count st pk change = some st1)
    (hinv : ∀ f ∈ st.files, 1 ≤ f.reference_count) :
    ∀ f ∈ st1.files, 1 ≤ f.reference_count := by
  unfold update_reference_count at h
  cases hfind : st.files.find? (fun f => f.id == pk) with
  | none => rw [hfind] at h; cases h
  | some f0 =>
    rw [hfind] at h
    simp only [Option.some.injEq] at h
    subst h
    intro f hf
    simp only [List.mem_map] at hf
    obtain ⟨g, hg, rfl⟩ := hf
    by_cases hid : (g.id == pk) = true
    · simp only [hid, if_true]
      exact clampNewCount_pos _ _
    · simp only [hid, if_false]
      exact hinv g hg

/-- C4: when the digest is already stored but the requested reference name
clashes with an existing reference name, submit answers a 409 duplicate
naming the clashing file, and the store — in particular the owning File
counters — is exactly the pre-call store: no increment runs (the guard in
FileReference.save is dead) and the failing insert is confined to the
savepoint of FileReference.save. -/
theorem name_clash_conflict_leaves_counters_unchanged
    (st : DBState) (content : List Nat) (name ctype : String)
    (existing : FileRec)
    (hfind : st.files.find?
      (fun f => f.content_hash == some (hexdigest content)) = some existing)
    (hname : st.refs.any (fun r => r.reference_name == name) = true) :
    submit st (some (content, name, ctype)) =
      (.conflictDuplicate existing.original_filename, st) := by
  simp only [submit]
  rw [hfind]
  simp [fileReference_create, hname]

theorem name_clash_conflict_witness :
    submit ⟨[⟨0, "a.txt", "text", 1, some [104], 2, 1⟩], [⟨5, 0, "b.txt"⟩], 6⟩
        (some ([104], "b.txt", "text")) =
      (.conflictDuplicate "a.txt",
       ⟨[⟨0, "a.txt", "text", 1, some [104], 2, 1⟩], [⟨5, 0, "b.txt"⟩], 6⟩) :=
  name_clash_conflict_leaves_counters_unchanged
    ⟨[⟨0, "a.txt", "text", 1, some [104], 2, 1⟩], [⟨5, 0, "b.txt"⟩], 6⟩
    [104] "b.txt" "text" ⟨0, "a.txt", "text", 1, some [104], 2, 1⟩
    (by decide) (by decide)

/-- C5 counterexample: the create path of submit, reaching its insert when
the store already holds a File with the same digest and the same filename
(the only state in which the applied pair constraint makes the insert
fail), creates no FileReference — the resulting reference table stays
empty, while the claim requires a new FileReference against the existing
row — and the outcome is an unhandled server error, not a re-resolution. -/
theorem losing_create_creates_no_reference_and_errors :
    createNewFile ⟨[⟨0, "a.txt", "text", 1, some [104], 1, 0⟩], [], 1⟩
        [104] "a.txt" "text" =
      (.serverError, ⟨[⟨0, "a.txt", "text", 1, some [104], 1, 0⟩], [], 1⟩) ∧
    (createNewFile ⟨[⟨0, "a.txt", "text", 1, some [104], 1, 0⟩], [], 1⟩
        [104] "a.txt" "text").2.refs = [] := by
  exact ⟨by decide, by decide⟩

/-- C5 amended: when the File insert actually fails — possible only when
the racing row matches both digest and filename, since the applied schema
constrains the pair — submit creates no FileReference against the
now-existing row: the query the IntegrityError handler runs inside the
broken transaction raises TransactionManagementError, so the request ends
as an unhandled server error with the whole transaction rolled back and
the store unchanged. -/
theorem losing_create_raises_server_error (st : DBState) (content : List Nat)
    (name ctype : String)
    (hne : content ≠ [])
    (hclash : st.files.any (fun f =>
      f.content_hash == some (hexdigest content) &&
      f.original_filename == name) = true) :
    createNewFile st content name ctype = (.serverError, st) := by
  unfold createNewFile
  have hemp : content.isEmpty = false := by
    simp [List.isEmpty_iff, hne]
  rw [hemp]
  simp only [Bool.false_eq_true, if_false, hclash, if_true]

theorem losing_create_raises_server_error_witness :
    createNewFile ⟨[⟨0, "a.txt", "text", 1, some [104], 1, 0⟩], [], 9⟩
        [104] "a.txt" "text" =
      (.serverError, ⟨[⟨0, "a.txt", "text", 1, some [104], 1, 0⟩], [], 9⟩) :=
  losing_create_raises_server_error
    ⟨[⟨0, "a.txt", "text", 1, some [104], 1, 0⟩], [], 9⟩
    [104] "a.txt" "text" (by decide) (by decide)

/-- C7: across any sequence of update_reference_count calls with deltas +1
or -1 against a store whose File rows all have counts of at least 1, every
File row still has a count of at least 1 afterwards: the clamp floors the
count at 1. -/
theorem reference_count_never_below_one (pk : Nat) (ds : List Int) :
    ∀ st : DBState, (∀ d ∈ ds, d = 1 ∨ d = -1) →
      (∀ f ∈ st.files, 1 ≤ f.reference_count) →
      ((adjustSeq st pk ds).files.all (fun f => 1 ≤ f.reference_count)) = true := by
  induction ds with
  | nil =>
    intro st _ hinv
    simp only [adjustSeq, List.all_eq_true]
    intro f hf
    exact decide_eq_true (hinv f hf)
  | cons d ds ih =>
    intro st hds hinv
    simp only [adjustSeq]
    cases hurc : update_reference_count st pk d with
    | none => exact ih st (fun e he => hds e (List.mem_cons_of_mem d he)) hinv
    | some st1 =>
      exact ih st1 (fun e he => hds e (List.mem_cons_of_mem d he))
        (update_reference_count_count_ge st pk d st1 hurc hinv)

theorem reference_count_never_below_one_witness :
    ((adjustSeq ⟨[⟨0, "a.txt", "text", 5, some [1], 1, 0⟩], [], 1⟩ 0
        [-1, -1]).files.all (fun f => 1 ≤ f.reference_count)) = true :=
  reference_count_never_below_one 0 [-1, -1] _ (by decide) (by decide)

/-- C6: destroy on a File with at least one live reference answers a 409
carrying the live reference count and leaves the store exactly as it was;
destroy on a File with zero references deletes that File row (and nothing
else) and answers deleted. -/
theorem destroy_gated_on_references (st : DBState) (pk : Nat) (f : FileRec)
    (hf : st.files.find? (fun g => g.id == pk) = some f) :
    (0 < (st.refs.filter (fun r => r.original_file == pk)).length →
      destroy st pk =
        (.conflictReferences
          (st.refs.filter (fun r => r.original_file == pk)).length, st)) ∧
    ((st.refs.filter (fun r => r.original_file == pk)).length = 0 →
      destroy st pk =
        (.deleted,
         { st with files := st.files.filter (fun g => !(g.id == pk)) })) := by
  constructor
  · intro hpos
    simp only [destroy]
    rw [hf]
    simp only [if_pos hpos]
  · intro hzero
    simp only [destroy]
    rw [hf]
    have hneg : ¬ 0 < (st.refs.filter (fun r => r.original_file == pk)).length := by
      omega
    simp only [if_neg hneg]
    have hnil : st.refs.filter (fun r => r.original_file == pk) = [] :=
      List.length_eq_zero.mp hzero
    have hrefs : st.refs.filter (fun r => !(r.original_file == pk)) = st.refs := by
      apply List.filter_eq_self.mpr
      intro r hr
      have hrf := List.filter_eq_nil_iff.mp hnil r hr
      simp only [Bool.not_eq_true'] at hrf ⊢
      simpa using hrf
    rw [hrefs]

theorem destroy_gated_witness :
    destroy ⟨[⟨0, "a.txt", "text", 5, some [1], 2, 5⟩], [⟨1, 0, "b.txt"⟩], 2⟩ 0 =
      (.conflictReferences 1,
       ⟨[⟨0, "a.txt", "text", 5, some [1], 2, 5⟩], [⟨1, 0, "b.txt"⟩], 2⟩) ∧
    destroy ⟨[⟨0, "a.txt", "text", 5, some [1], 1, 0⟩], [], 1⟩ 0 =
      (.deleted, ⟨[], [], 1⟩) := by
  constructor
  · exact (destroy_gated_on_references
      ⟨[⟨0, "a.txt", "text", 5, some [1], 2, 5⟩], [⟨1, 0, "b.txt"⟩], 2⟩ 0
      ⟨0, "a.txt", "text", 5, some [1], 2, 5⟩ (by decide)).1 (by decide)
  · exact (destroy_gated_on_references
      ⟨[⟨0, "a.txt", "text", 5, some [1], 1, 0⟩], [], 1⟩ 0
      ⟨0, "a.txt", "text", 5, some [1], 1, 0⟩ (by decide)).2 (by decide)

theorem clampNewCount_decrement (c : Nat) :
    clampNewCount c (-1) = if c ≤ 1 then 1 else c - 1 := by
  unfold clampNewCount
  split <;> split <;> omega

theorem decrement_matches_formula (size c : Nat) :
    (if 1 < c then size * (clampNewCount c (-1) - 1) else 0) =
      storage_saved_formula size (clampNewCount c (-1)) := by
  rw [clampNewCount_decrement]
  unfold storage_saved_formula
  rcases le_or_lt c 1 with h | h
  · simp [if_pos h, show ¬ 1 < c by omega]
  · rcases Nat.lt_or_ge 2 c with h2 | h2
    · simp [show ¬ c ≤ 1 by omega, h, show 1 < c - 1 by omega]
    · have hc : c = 2 := by omega
      subst hc
      simp

/-- C9: deleting a reference removes exactly that one FileReference row,
decrements the owning File count by 1 subject to the floor of 1, and the
storage_saved it writes equals the recomputation formula of File.save at
the new count; no other File row and no other FileReference row changes,
all within the one operation. -/
theorem delete_reference_decrements_owner (st : DBState) (refId : Nat)
    (ref : FileRefRec) (fown : FileRec)
    (href : st.refs.find? (fun r => r.id == refId) = some ref)
    (hf : st.files.find? (fun g => g.id == ref.original_file) = some fown)
    (hids : ∀ g ∈ st.files, g.id = ref.original_file → g = fown)
    (huniq : (st.refs.filter (fun r => r.id == refId)).length = 1) :
    deleteReference st refId =
      (.deleted,
       { st with
         files := st.files.map (fun g =>
           if g.id == ref.original_file then
             { g with
               reference_count :=
                 if fown.reference_count ≤ 1 then 1
                 else fown.reference_count - 1,
               storage_saved :=
                 storage_saved_formula g.size
                   (if fown.reference_count ≤ 1 then 1
                    else fown.reference_count - 1) }
           else g),
         refs := st.refs.filter (fun r => !(r.id == refId)) }) ∧
    (st.refs.filter (fun r => !(r.id == refId))).length + 1 = st.refs.length := by
  constructor
  · simp only [deleteReference, href,
      update_reference_count_files st ref.original_file (-1) fown hf]
    have hmap : st.files.map (fun g =>
        if g.id == ref.original_file then
          { g with
            reference_count := clampNewCount fown.reference_count (-1),
            storage_saved :=
              if 1 < g.reference_count then
                g.size * (clampNewCount fown.reference_count (-1) - 1)
              else 0 }
        else g) =
      st.files.map (fun g =>
        if g.id == ref.original_file then
          { g with
            reference_count :=
              if fown.reference_count ≤ 1 then 1 else fown.reference_count - 1,
            storage_saved :=
              storage_saved_formula g.size
                (if fown.reference_count ≤ 1 then 1
                 else fown.reference_count - 1) }
        else g) := by
      apply List.map_congr_left
      intro g hg
      by_cases hid : (g.id == ref.original_file) = true
      · have hg_eq : g = fown := hids g hg (by simpa using hid)
        subst hg_eq
        simp only [hid, if_true]
        rw [decrement_matches_formula, clampNewCount_decrement]
      · simp only [hid, Bool.false_eq_true, if_false]
    rw [hmap]
  · have hsum := length_filter_not_add (fun r => r.id == refId) st.refs
    omega

theorem delete_reference_decrements_owner_witness :
    deleteReference
        ⟨[⟨0, "a.txt", "text", 5, some [1], 2, 5⟩], [⟨3, 0, "b.txt"⟩], 4⟩ 3 =
      (.deleted, ⟨[⟨0, "a.txt", "text", 5, some [1], 1, 0⟩], [], 4⟩) ∧
    (([⟨3, 0, "b.txt"⟩] : List FileRefRec).filter
      (fun r => !(r.id == 3))).length + 1 = 1 :=
  delete_reference_decrements_owner
    ⟨[⟨0, "a.txt", "text", 5, some [1], 2, 5⟩], [⟨3, 0, "b.txt"⟩], 4⟩ 3
    ⟨3, 0, "b.txt"⟩ ⟨0, "a.txt", "text", 5, some [1], 2, 5⟩
    (by decide) (by decide) (by decide) (by decide)

/-- C8: calculate_file_hash returns the stream with its read cursor at the
pre-call position and its content untouched, and hashing two streams
holding identical bytes yields identical digests regardless of the cursor
position of each stream before the call. -/
theorem hash_restores_cursor_and_is_content_determined
    (sha : List Nat → List Nat) (f g : FileStream)
    (h : f.content = g.content) :
    (calculate_file_hash sha f).2 = f ∧
    (calculate_file_hash sha f).1 = (calculate_file_hash sha g).1 := by
  constructor
  · unfold calculate_file_hash
    simp only
    ext
    · simp [readLoopFuel_content]
    · rfl
  · unfold calculate_file_hash
    simp only
    rw [readLoopFuel_bytes _ _ (by simp), readLoopFuel_bytes _ _ (by simp)]
    simp [h]

theorem hash_restores_cursor_witness :
    (calculate_file_hash (fun l => l) ⟨[7, 8], 1⟩).2 = ⟨[7, 8], 1⟩ ∧
    (calculate_file_hash (fun l => l) ⟨[7, 8], 1⟩).1 =
      (calculate_file_hash (fun l => l) ⟨[7, 8], 0⟩).1 :=
  hash_restores_cursor_and_is_content_determined (fun l => l)
    ⟨[7, 8], 1⟩ ⟨[7, 8], 0⟩ rfl

theorem fileReference_create_files (st : DBState) (fid : Nat) (name : String)
    (st2 : DBState) (h : fileReference_create st fid name = some st2) :
    st2.files = st.files := by
  unfold fileReference_create at h
  split at h
  · cases h
  · simp only [Option.some.injEq] at h
    subst h
    rfl

/-- C10: a request without a file part is rejected as a validation failure
with the store unchanged, and an upload of empty bytes is likewise rejected
with the store unchanged, provided no stored File carries the digest of the
empty content; that side condition is itself preserved by every submit, so
it holds in every store reachable through submit from an empty store. -/
theorem empty_or_missing_upload_rejected (st : DBState) (name ctype : String)
    (hno : st.files.all (fun f => !(f.content_hash == some (hexdigest []))) = true) :
    submit st none = (.validationError "No file provided", st) ∧
    submit st (some ([], name, ctype)) = (.validationError "Upload failed", st) ∧
    ∀ u, ((submit st u).2.files.all
      (fun f => !(f.content_hash == some (hexdigest [])))) = true := by
  have hfind : st.files.find?
      (fun f => f.content_hash == some (hexdigest [])) = none := by
    rw [List.find?_eq_none]
    intro f hf
    have hx := List.all_eq_true.mp hno f hf
    simp only [Bool.not_eq_true'] at hx
    simp [hx]
  refine ⟨rfl, ?_, ?_⟩
  · simp only [submit, hfind]
    rfl
  · intro u
    rcases u with _ | ⟨content, n2, t2⟩
    · exact hno
    · simp only [submit]
      cases hf2 : st.files.find?
          (fun f => f.content_hash == some (hexdigest content)) with
      | some existing =>
        simp only [hf2]
        cases hrc : fileReference_create st existing.id n2 with
        | some st2 =>
          simp only [hrc]
          rw [fileReference_create_files st existing.id n2 st2 hrc]
          exact hno
        | none =>
          simp only [hrc]
          exact hno
      | none =>
        simp only [hf2]
        by_cases hc : content.isEmpty = true
        · simp only [createNewFile, hc, if_true]
          exact hno
        · by_cases hpair : (st.files.any (fun f =>
              f.content_hash == some (hexdigest content) &&
              f.original_filename == n2)) = true
          · simp only [createNewFile, hc, Bool.false_eq_true, if_false,
              hpair, if_true]
            exact hno
          · rw [Bool.not_eq_true] at hpair
            simp only [createNewFile, hc, hpair, Bool.false_eq_true, if_false]
            rw [List.all_eq_true]
            intro f hf
            rcases List.mem_cons.mp hf with hfh | hft
            · subst hfh
              have hcne : content ≠ [] := by
                simpa [List.isEmpty_iff] using hc
              simp [hexdigest_id, hcne]
            · exact List.all_eq_true.mp hno f hft

theorem empty_or_missing_upload_rejected_witness :
    submit ⟨[], [], 0⟩ none = (.validationError "No file provided", ⟨[], [], 0⟩) ∧
    submit ⟨[], [], 0⟩ (some ([], "a.txt", "text")) =
      (.validationError "Upload failed", ⟨[], [], 0⟩) ∧
    ((submit ⟨[], [], 0⟩ (some ([104], "a.txt", "text"))).2.files.all
      (fun f => !(f.content_hash == some (hexdigest [])))) = true := by
  have h := empty_or_missing_upload_rejected ⟨[], [], 0⟩ "a.txt" "text" (by decide)
  exact ⟨h.1, h.2.1, h.2.2 (some ([104], "a.txt", "text"))⟩

end FileHub

